import Mathlib

/-!
Shallow embedding of the videoio library (files `videoio/video_uint16.py`,
`videoio/video_rgb.py`, `videoio/info.py`) together with proofs about the
properties of its depth-packing codec, its reader/writer classes and its
whole-video read functions.

Machine integers are modelled as `Nat` (numpy `uint8`/`uint16` values stay
in range wherever the source stays in range; bounds are stated explicitly as
hypotheses where the source's dtype guarantees them).  The exact rational
numbers `ℚ` stand in for Python floats in the seek-time and intensity
computations: the theorems about them verify which formula the code builds,
in exact arithmetic.
-/

set_option autoImplicit false

namespace Videoio

/-- The numpy dtypes the library dispatches on.  `int32` stands for any
dtype that is neither unsigned 8/16-bit nor floating point. -/
inductive Dtype where
  | uint8
  | uint16
  | float16
  | float32
  | float64
  | int32
deriving DecidableEq

/-- Whether a dtype is one of the three floating-point dtypes tested by
`VideoWriter.write` (`video_rgb.py` line 275) and `videosave` (line 110). -/
def Dtype.isFloat : Dtype → Bool
  | .float16 => true
  | .float32 => true
  | .float64 => true
  | _ => false

/-! ### Depth channel codec (`video_uint16.py`)

The packing in `uint16save` (lines 86-93) and `Uint16Writer.write`
(lines 218-224) is elementwise over the sample plane:
`upper_part = (data/256).astype(np.uint8)`, `lower_part = data % 256`,
and the low byte is replaced by `255 - low` exactly where the high byte is
odd.  numpy's float division followed by `astype(np.uint8)` truncates, which
on the uint16 domain agrees with `Nat` division by 256.  The unpacking in
`uint16read` (lines 52-57) and `Uint16Reader.__next__` (lines 172-177)
unfolds plane 0 by the parity of plane 2 and recombines. -/

/-- Per-sample packing of a uint16 sample into the byte triple
(plane0, plane1, plane2) = (lower_coding, zeros, upper_part), as computed by
`uint16save` / `Uint16Writer.write`. -/
def packPixel (sample : Nat) : Nat × Nat × Nat :=
  let upper_part := sample / 256
  let lower_part := sample % 256
  let lower_coding := if upper_part % 2 = 1 then 255 - lower_part else lower_part
  (lower_coding, 0, upper_part)

/-- Per-sample unpacking of the byte triple back to a uint16 sample, as
computed by `uint16read` / `Uint16Reader.__next__`:
`lower_part = 255 - lower_coding` where `upper_part` is odd, then
`lower_part + upper_part * 256`. -/
def unpackPixel (p : Nat × Nat × Nat) : Nat :=
  let upper_part := p.2.2
  let lower_coding := p.1
  let lower_part := if upper_part % 2 = 1 then 255 - lower_coding else lower_coding
  lower_part + upper_part * 256

/-- A numpy array holding one depth frame, as passed to
`Uint16Writer.write`: its numpy shape, its dtype, and its samples in
row-major order. -/
structure DepthFrame where
  shape : List Nat
  dtype : Dtype
  data : List Nat

/-- `Uint16Writer.write` (`video_uint16.py` lines 209-227).  The writer
asserts that the frame is two-dimensional and that the dtype is uint16 or
uint8; it never consults the resolution the writer was constructed with.
On success the bytes pushed to the process's stdin are the three stacked
planes `[lower_coding, zeros, upper_part]` (uint16) or
`[data, zeros, zeros]` (uint8), in `tobytes` order.  The two elementwise
numpy passes (`% 256` then conditional fold) are fused into one map. -/
def Uint16Writer.write (resolution : Nat × Nat) (f : DepthFrame) :
    Except String (List Nat) :=
  if f.shape.length ≠ 2 then .error "Multiple dimensions is not supported"
  else if f.dtype ≠ Dtype.uint16 ∧ f.dtype ≠ Dtype.uint8 then
    .error "Dtype is not supported"
  else if f.dtype = Dtype.uint16 then
    let upper_part := f.data.map fun s => s / 256
    let lower_coding :=
      f.data.map fun s => if s / 256 % 2 = 1 then 255 - s % 256 else s % 256
    let zeros := f.data.map fun _ => 0
    .ok (lower_coding ++ zeros ++ upper_part)
  else
    let zeros := f.data.map fun _ => 0
    .ok (f.data ++ zeros ++ zeros)

/-- C1.  For every 16-bit unsigned sample in [0, 65535], decoding the
encoded 3-byte pixel triple returns the original sample: the writer's
packing composed with the reader's unpacking is the identity on uint16
values. -/
theorem unpack_pack_roundtrip (s : Nat) (h : s < 65536) :
    unpackPixel (packPixel s) = s := by
  unfold packPixel unpackPixel
  rcases Nat.mod_two_eq_zero_or_one (s / 256) with h2 | h2 <;>
    simp only [h2] <;> simp <;> omega

/-- Witness for C1 at a boundary sample: 256 has an odd high byte, so its
low byte is folded, and unpacking still recovers 256. -/
theorem unpack_pack_roundtrip_witness :
    unpackPixel (packPixel 256) = 256 :=
  unpack_pack_roundtrip 256 (by norm_num)

/-- C2.  On a 2-dimensional uint16 frame, `Uint16Writer.write` produces
exactly the planes the spec defines: plane 2 is `sample >>> 8`, plane 0 is
the low byte when the high byte is even and `255 - low` when it is odd, and
plane 1 is identically zero; on a uint8 frame it produces the degenerate
planes `[data, zeros, zeros]` (high = 0, b0 = sample, b1 = b2 = 0). -/
theorem uint16Writer_write_planes (res : Nat × Nat) (f : DepthFrame)
    (hshape : f.shape.length = 2) (hrange : ∀ s ∈ f.data, s < 65536) :
    (f.dtype = Dtype.uint16 →
      Uint16Writer.write res f =
        .ok ((f.data.map fun s =>
                if (s >>> 8) % 2 = 0 then s % 256 else 255 - s % 256) ++
             (f.data.map fun _ => 0) ++
             (f.data.map fun s => s >>> 8))) ∧
    (f.dtype = Dtype.uint8 →
      Uint16Writer.write res f =
        .ok (f.data ++ (f.data.map fun _ => 0) ++ (f.data.map fun _ => 0))) := by
  have hfun : (fun s => if (s >>> 8) % 2 = 0 then s % 256 else 255 - s % 256) =
      fun s : Nat => if s / 256 % 2 = 1 then 255 - s % 256 else s % 256 := by
    funext s
    have hs : s >>> 8 = s / 256 := by
      simp [Nat.shiftRight_eq_div_pow]
    rw [hs]
    rcases Nat.mod_two_eq_zero_or_one (s / 256) with h | h <;> simp [h]
  have hfun2 : (fun s : Nat => s >>> 8) = fun s : Nat => s / 256 := by
    funext s
    simp [Nat.shiftRight_eq_div_pow]
  constructor
  · intro hd
    simp [Uint16Writer.write, hshape, hd, hfun, hfun2]
  · intro hd
    simp [Uint16Writer.write, hshape, hd]

/-- Witness for C2 on concrete frames: a 1×2 uint16 frame holding
samples 256 and 511 (odd high byte, so folded low bytes 255 and 0), and a
1×1 uint8 frame holding 7. -/
theorem uint16Writer_write_planes_witness :
    Uint16Writer.write (2, 1) ⟨[1, 2], Dtype.uint16, [256, 511]⟩ =
      .ok [255, 0, 0, 0, 1, 1] ∧
    Uint16Writer.write (1, 1) ⟨[1, 1], Dtype.uint8, [7]⟩ =
      .ok [7, 0, 0] := by
  constructor
  · have h := (uint16Writer_write_planes (2, 1)
      ⟨[1, 2], Dtype.uint16, [256, 511]⟩ rfl (by decide)).1 rfl
    rw [h]
    rfl
  · have h := (uint16Writer_write_planes (1, 1)
      ⟨[1, 1], Dtype.uint8, [7]⟩ rfl (by decide)).2 rfl
    rw [h]
    rfl

/-! ### Reader step (`Uint16Reader.__next__`, `VideoReader.__next__`)

`__next__` reads `np.prod(resolution) * 3` bytes from the process's stdout.
`if not in_bytes` catches only an empty chunk (raising StopIteration);
any nonzero chunk reaches `np.frombuffer(...).reshape(...)`, which raises a
ValueError unless the chunk holds exactly `width*height*3` bytes. -/

/-- Outcome of one `__next__` call: iteration end (StopIteration), a decoded
frame, or a raised ValueError from `reshape`. -/
inductive ReadResult where
  | stopIteration
  | frame (data : List Nat)
  | valueError (msg : String)
deriving DecidableEq

/-- Decoding of one full chunk in `uint16read` / `Uint16Reader.__next__`:
plane 0 is `in_frame[0]` (the first `npixels` bytes), plane 2 is
`in_frame[2]` (the last `npixels` bytes); each pixel is unfolded by the
parity of plane 2 and recombined as `lower + upper * 256`. -/
def uint16DecodeFrame (npixels : Nat) (chunk : List Nat) : List Nat :=
  let lower_coding := chunk.take npixels
  let upper_part := (chunk.drop (2 * npixels)).take npixels
  List.zipWith
    (fun b0 b2 => (if b2 % 2 = 1 then 255 - b0 else b0) + b2 * 256)
    lower_coding upper_part

/-- `Uint16Reader.__next__` (`video_uint16.py` lines 167-178) applied to the
chunk returned by `stdout.read(np.prod(resolution) * 3)`. -/
def Uint16Reader.next (resolution : Nat × Nat) (chunk : List Nat) : ReadResult :=
  if chunk.length = 0 then .stopIteration
  else if chunk.length = resolution.1 * resolution.2 * 3 then
    .frame (uint16DecodeFrame (resolution.1 * resolution.2) chunk)
  else .valueError "cannot reshape array"

/-- `VideoReader.__next__` (`video_rgb.py` lines 221-226) applied to the
chunk returned by `stdout.read(np.prod(resolution) * 3)`; a complete chunk
is returned as the raw RGB frame. -/
def VideoReader.next (resolution : Nat × Nat) (chunk : List Nat) : ReadResult :=
  if chunk.length = 0 then .stopIteration
  else if chunk.length = resolution.1 * resolution.2 * 3 then .frame chunk
  else .valueError "cannot reshape array"

/-- Counterexample to C3: on a 1×1 stream (48 bytes per frame would be 3, so
a 1-byte chunk is nonzero but incomplete) both readers raise a reshape
ValueError instead of treating the partial trailing frame as end-of-stream. -/
theorem readers_short_read_not_eos :
    Uint16Reader.next (1, 1) [7] = ReadResult.valueError "cannot reshape array" ∧
    Uint16Reader.next (1, 1) [7] ≠ ReadResult.stopIteration ∧
    VideoReader.next (1, 1) [7] = ReadResult.valueError "cannot reshape array" ∧
    VideoReader.next (1, 1) [7] ≠ ReadResult.stopIteration := by
  refine ⟨rfl, ?_, rfl, ?_⟩ <;> decide

/-- C3 amended: only a read of zero bytes is treated as end-of-stream; a
nonzero but incomplete chunk (fewer or more than `width*height*3` bytes) is
not silently dropped — both readers raise a ValueError from `reshape`. -/
theorem readers_read_step_cases (res : Nat × Nat) (chunk : List Nat) :
    (chunk.length = 0 →
      Uint16Reader.next res chunk = ReadResult.stopIteration ∧
      VideoReader.next res chunk = ReadResult.stopIteration) ∧
    (chunk.length ≠ 0 → chunk.length ≠ res.1 * res.2 * 3 →
      Uint16Reader.next res chunk = ReadResult.valueError "cannot reshape array" ∧
      VideoReader.next res chunk = ReadResult.valueError "cannot reshape array") := by
  constructor
  · intro h
    simp [Uint16Reader.next, VideoReader.next, h]
  · intro h1 h2
    simp [Uint16Reader.next, VideoReader.next, h1, h2]

/-- Witness for C3 amended: empty chunk ends iteration; a 2-byte chunk on a
1×1 stream raises. -/
theorem readers_read_step_cases_witness :
    Uint16Reader.next (1, 1) [] = ReadResult.stopIteration ∧
    VideoReader.next (1, 1) [5, 5] = ReadResult.valueError "cannot reshape array" :=
  ⟨((readers_read_step_cases (1, 1) []).1 rfl).1,
   ((readers_read_step_cases (1, 1) [5, 5]).2 (by decide) (by decide)).2⟩

/-! ### Prober parameters and reader length -/

/-- The dictionary produced by `read_video_params` (`info.py` lines 44-47):
width, height, average fps, and the frame count (`length`) when
`nb_frames` was reported by the prober. -/
structure VideoParams where
  width : Nat
  height : Nat
  fps : ℚ
  length : Option Nat
deriving DecidableEq

/-- `VideoReader.__len__` (`video_rgb.py` lines 183-187):
`max(length - start_frame, 0)` when a frame count is present, else 0.
Python subtraction of ints is modelled on `Int`. -/
def VideoReader.len (p : VideoParams) (start_frame : Nat) : Int :=
  match p.length with
  | some l => max ((l : Int) - (start_frame : Int)) 0
  | none => 0

/-- `Uint16Reader.__len__` (`video_uint16.py` lines 153-157): returns the
reported frame count unchanged (`start_frame` is never consulted), else 0. -/
def Uint16Reader.len (p : VideoParams) (start_frame : Nat) : Int :=
  match p.length with
  | some l => (l : Int)
  | none => 0

/-- Counterexample to C4: a `Uint16Reader` on a source reporting 10 frames,
constructed with `start_frame = 3`, reports length 10, not
`max(10 - 3, 0) = 7`. -/
theorem uint16Reader_len_ignores_start_frame :
    Uint16Reader.len ⟨64, 48, 30, some 10⟩ 3 = 10 ∧
    Uint16Reader.len ⟨64, 48, 30, some 10⟩ 3 ≠ max ((10 : Int) - 3) 0 := by
  constructor <;> decide

/-- C4 amended: `VideoReader` reports `max(N - k, 0)` when the prober
reported a frame count N (and 0 otherwise), while `Uint16Reader` ignores
`start_frame` and reports N unchanged (and 0 otherwise). -/
theorem reader_len_accounting (p : VideoParams) (k N : Nat) :
    (p.length = some N →
      VideoReader.len p k = max ((N : Int) - (k : Int)) 0 ∧
      Uint16Reader.len p k = (N : Int)) ∧
    (p.length = none →
      VideoReader.len p k = 0 ∧ Uint16Reader.len p k = 0) := by
  constructor
  · intro h
    simp [VideoReader.len, Uint16Reader.len, h]
  · intro h
    simp [VideoReader.len, Uint16Reader.len, h]

/-- Witness for C4 amended at N = 10, k = 3 and at a source with no frame
count. -/
theorem reader_len_accounting_witness :
    (VideoReader.len ⟨64, 48, 30, some 10⟩ 3 = max ((10 : Int) - 3) 0 ∧
      Uint16Reader.len ⟨64, 48, 30, some 10⟩ 3 = (10 : Int)) ∧
    (VideoReader.len ⟨64, 48, 30, none⟩ 3 = 0 ∧
      Uint16Reader.len ⟨64, 48, 30, none⟩ 3 = 0) :=
  ⟨(reader_len_accounting ⟨64, 48, 30, some 10⟩ 3 10).1 rfl,
   (reader_len_accounting ⟨64, 48, 30, none⟩ 3 10).2 rfl⟩

/-! ### ffmpeg pipeline construction (`VideoReader.__init__`/`__iter__`,
`videoread`, `Uint16Reader.__iter__`)

The relevant observable output is which arguments and filters the reader
hands to the spawned ffmpeg process: the `ss` seek time, the optional
`scale` filter, the optional `fps` filter, and whether `vsync='0'` (raw
index-based extraction) is passed on the output. -/

/-- The ffmpeg invocation a reader builds: seek time (`ss`), `scale`
filter, `fps` filter, and the `vsync='0'` output flag. -/
structure FfmpegPipeline where
  ss : Option ℚ
  scaleFilter : Option (Nat × Nat)
  fpsFilter : Option ℚ
  vsync0 : Bool
deriving DecidableEq

/-- The fields of a `VideoReader` set by `__init__`
(`video_rgb.py` lines 143-161) that `__iter__` later consults. -/
structure ReaderState where
  start_frame : Nat
  fps : ℚ
  output_fps : Option ℚ
  respect_original_timestamps : Bool
  apply_scale : Bool
  resolution : Nat × Nat
deriving DecidableEq

/-- `VideoReader.__init__` (`video_rgb.py` lines 143-161): stores the
arguments, resolves the resolution against the prober's parameters, and
forces `respect_original_timestamps` to True whenever an output fps was
requested (lines 159-160). -/
def VideoReader.init (start_frame : Nat) (params : VideoParams)
    (output_resolution : Option (Nat × Nat)) (output_fps : Option ℚ)
    (respect_original_timestamps : Bool) : ReaderState :=
  { start_frame := start_frame
    fps := params.fps
    output_fps := output_fps
    respect_original_timestamps :=
      if output_fps.isSome then true else respect_original_timestamps
    apply_scale := output_resolution.isSome
    resolution := output_resolution.getD (params.width, params.height) }

/-- `VideoReader.__iter__` (`video_rgb.py` lines 163-181): seek to
`(start_frame - 0.5) / fps'` when `start_frame != 0`, where `fps'` is the
requested output fps if given and the prober's fps otherwise; insert the
`scale` and `fps` filters when requested; pass `vsync='0'` exactly when
timestamps are not respected. -/
def VideoReader.iter (s : ReaderState) : FfmpegPipeline :=
  { ss :=
      if s.start_frame ≠ 0 then
        some (((s.start_frame : ℚ) - 1/2) /
          (match s.output_fps with
           | none => s.fps
           | some ofps => ofps))
      else none
    scaleFilter := if s.apply_scale then some s.resolution else none
    fpsFilter := s.output_fps
    vsync0 := !s.respect_original_timestamps }

/-- The pipeline built inside `videoread` (`video_rgb.py` lines 44-63):
the same seek computation, then the `scale` filter, then the `fps` filter
(which also forces `respect_original_timestamps = True`), then the
`vsync='0'` decision. -/
def videoreadPipeline (start_frame : Nat) (params : VideoParams)
    (output_resolution : Option (Nat × Nat)) (output_fps : Option ℚ)
    (respect_original_timestamps : Bool) : FfmpegPipeline :=
  let ss :=
    if start_frame ≠ 0 then
      some (((start_frame : ℚ) - 1/2) /
        (match output_fps with
         | none => params.fps
         | some ofps => ofps))
    else none
  let respect := if output_fps.isSome then true else respect_original_timestamps
  { ss := ss
    scaleFilter := output_resolution
    fpsFilter := output_fps
    vsync0 := !respect }

/-- `Uint16Reader.__iter__` (`video_uint16.py` lines 137-142) takes no
output-fps argument: the seek time, passed only when `start_frame != 0`,
always uses the prober's fps. -/
def Uint16Reader.iterSeek (start_frame : Nat) (fps : ℚ) : Option ℚ :=
  if start_frame ≠ 0 then some (((start_frame : ℚ) - 1/2) / fps) else none

/-- C6.  Every reader passes seek time `(start_frame - 1/2) / effectiveFps`
to ffmpeg when `start_frame > 0` — where `effectiveFps` is the requested
output frame rate when supplied and the prober's frame rate otherwise —
and passes no seek time at all when `start_frame = 0`. -/
theorem reader_seek_time (s : ReaderState) (k : Nat) (params : VideoParams)
    (ores : Option (Nat × Nat)) (ofps : Option ℚ) (rt : Bool) (fps : ℚ) :
    (VideoReader.iter s).ss =
      (if s.start_frame = 0 then none
       else some (((s.start_frame : ℚ) - 1/2) / s.output_fps.getD s.fps)) ∧
    (videoreadPipeline k params ores ofps rt).ss =
      (if k = 0 then none
       else some (((k : ℚ) - 1/2) / ofps.getD params.fps)) ∧
    Uint16Reader.iterSeek k fps =
      (if k = 0 then none else some (((k : ℚ) - 1/2) / fps)) := by
  refine ⟨?_, ?_, ?_⟩
  · rcases s with ⟨sf, f, o, r, a, re⟩
    cases o <;> by_cases h : sf = 0 <;>
      simp [VideoReader.iter, h]
  · cases ofps <;> by_cases h : k = 0 <;>
      simp [videoreadPipeline, h]
  · by_cases h : k = 0 <;> simp [Uint16Reader.iterSeek, h]

/-- C9.  When an explicit output frame rate is requested, every pipeline
the RGB reader builds contains the `fps` frame-rate conversion filter and
never the raw index-based `vsync='0'` mode: `__init__` forces
`respect_original_timestamps` regardless of the argument, and `videoread`
does the same locally. -/
theorem output_fps_forces_timestamps (k : Nat) (params : VideoParams)
    (ores : Option (Nat × Nat)) (rt : Bool) (f : ℚ) :
    (VideoReader.iter (VideoReader.init k params ores (some f) rt)).fpsFilter
        = some f ∧
    (VideoReader.iter (VideoReader.init k params ores (some f) rt)).vsync0
        = false ∧
    (videoreadPipeline k params ores (some f) rt).fpsFilter = some f ∧
    (videoreadPipeline k params ores (some f) rt).vsync0 = false := by
  refine ⟨rfl, ?_, rfl, ?_⟩ <;>
    simp [VideoReader.iter, VideoReader.init, videoreadPipeline]

/-! ### RGB writer (`VideoWriter.write`, `video_rgb.py` lines 265-279)

Channel values are carried as exact rationals; a uint8 frame's values are
the natural numbers 0..255 embedded in `ℚ`, and its `tobytes` output is
exactly those values. -/

/-- numpy float-to-uint8 conversion `astype(np.uint8)` on the nonnegative
range produced by intensity data: truncation toward zero (which equals the
floor for nonnegative rationals), reduced modulo 256.  (numpy's behaviour
on negative or huge floats is platform-defined and outside the intensity
contract.) -/
def truncUint8 (x : ℚ) : ℚ := ((Int.toNat ⌊x⌋ % 256 : Nat) : ℚ)

/-- A numpy array holding one RGB frame, as passed to `VideoWriter.write`:
its numpy shape is the triple `(height, width, channels)`, carried as three
fields, plus its dtype and its channel values in row-major order. -/
structure ColorFrame where
  height : Nat
  width : Nat
  channels : Nat
  dtype : Dtype
  data : List ℚ

/-- `VideoWriter.write` (`video_rgb.py` lines 265-279): assert
`shape[2] == 3`, assert `resolution[i] == shape[1-i]` for i = 0, 1 (width
against width, height against height), convert a floating-point frame by
`(frame * 255).astype(np.uint8)`, reject any dtype that is neither float
nor uint8, and push the resulting bytes to stdin. -/
def VideoWriter.write (resolution : Nat × Nat) (f : ColorFrame) :
    Except String (List ℚ) :=
  if f.channels ≠ 3 then .error "Alpha channel is not supported"
  else if ¬ (resolution.1 = f.width ∧ resolution.2 = f.height) then
    .error "Resolution of color frame does not match with video resolution"
  else if f.dtype.isFloat then .ok (f.data.map fun x => truncUint8 (x * 255))
  else if f.dtype ≠ Dtype.uint8 then .error "Dtype is not supported"
  else .ok f.data

/-- The bytes on the external process's stdin pipe after a `write` call: an
error raised by the asserts or the dtype check happens before
`stdin.write`, so the pipe is unchanged on error. -/
def VideoWriter.pipeAfterWrite (pipe : List ℚ) (resolution : Nat × Nat)
    (f : ColorFrame) : List ℚ :=
  match VideoWriter.write resolution f with
  | .ok bs => pipe ++ bs
  | .error _ => pipe

/-- Counterexample to C5: `Uint16Writer.write` never compares the frame
against the writer's declared resolution, so a 1×1 uint16 frame written to
a stream declared 2×2 is not rejected — its 3 packed plane bytes are pushed
to the process. -/
theorem uint16Writer_write_no_resolution_check :
    Uint16Writer.write (2, 2) ⟨[1, 1], Dtype.uint16, [5]⟩ = .ok [5, 0, 0] ∧
    ([5, 0, 0] : List Nat).length ≠ 0 := by
  exact ⟨rfl, by decide⟩

/-- C5 amended: `VideoWriter.write` rejects a frame whose spatial size
disagrees with the declared resolution before any byte reaches the process
(the pipe is unchanged), while `Uint16Writer.write` checks only
dimensionality and dtype, so a resolution-mismatched 2D uint16 frame is
written through successfully. -/
theorem writer_shape_check (res : Nat × Nat) (f : ColorFrame)
    (pipe : List ℚ) (g : DepthFrame) :
    (f.channels = 3 →
      ¬ (res.1 = f.width ∧ res.2 = f.height) →
      VideoWriter.write res f =
        .error "Resolution of color frame does not match with video resolution" ∧
      VideoWriter.pipeAfterWrite pipe res f = pipe) ∧
    (g.shape.length = 2 → g.dtype = Dtype.uint16 →
      ∃ bs, Uint16Writer.write res g = .ok bs) := by
  constructor
  · intro h3 hmis
    have hw : VideoWriter.write res f =
        .error "Resolution of color frame does not match with video resolution" := by
      simp [VideoWriter.write, h3, hmis]
    exact ⟨hw, by simp [VideoWriter.pipeAfterWrite, hw]⟩
  · intro hs hd
    refine ⟨(g.data.map fun s =>
        if s / 256 % 2 = 1 then 255 - s % 256 else s % 256) ++
      (g.data.map fun _ => 0) ++ (g.data.map fun s => s / 256), ?_⟩
    simp [Uint16Writer.write, hs, hd]

/-- Witness for C5 amended: a 1×1 RGB frame against a 2×2 stream is
rejected with the pipe untouched, while a 1×1 uint16 depth frame against a
2×2 stream is accepted. -/
theorem writer_shape_check_witness :
    (VideoWriter.write (2, 2) ⟨1, 1, 3, Dtype.uint8, [1, 2, 3]⟩ =
        .error "Resolution of color frame does not match with video resolution" ∧
      VideoWriter.pipeAfterWrite [9] (2, 2) ⟨1, 1, 3, Dtype.uint8, [1, 2, 3]⟩ = [9]) ∧
    ∃ bs, Uint16Writer.write (2, 2) ⟨[1, 1], Dtype.uint16, [5]⟩ = .ok bs :=
  ⟨(writer_shape_check (2, 2) ⟨1, 1, 3, Dtype.uint8, [1, 2, 3]⟩ [9]
      ⟨[1, 1], Dtype.uint16, [5]⟩).1 rfl (by decide),
   (writer_shape_check (2, 2) ⟨1, 1, 3, Dtype.uint8, [1, 2, 3]⟩ [9]
      ⟨[1, 1], Dtype.uint16, [5]⟩).2 rfl rfl⟩

/-- C7.  On a frame passing the shape asserts, `VideoWriter.write` converts
a floating-point frame by scaling each channel value by 255 and truncating
to uint8, passes a uint8 frame through unchanged, and rejects every other
dtype with an unsupported-data-type error. -/
theorem videoWriter_write_dtype (res : Nat × Nat) (f : ColorFrame)
    (h3 : f.channels = 3) (hw : res.1 = f.width)
    (hh : res.2 = f.height) :
    (f.dtype.isFloat = true →
      VideoWriter.write res f = .ok (f.data.map fun x => truncUint8 (x * 255))) ∧
    (f.dtype = Dtype.uint8 → VideoWriter.write res f = .ok f.data) ∧
    (f.dtype.isFloat = false → f.dtype ≠ Dtype.uint8 →
      VideoWriter.write res f = .error "Dtype is not supported") := by
  refine ⟨?_, ?_, ?_⟩
  · intro hd
    simp [VideoWriter.write, h3, hw, hh, hd]
  · intro hd
    simp [VideoWriter.write, h3, hw, hh, hd, Dtype.isFloat]
  · intro hd1 hd2
    simp [VideoWriter.write, h3, hw, hh, hd1, hd2]

/-- Witness for C7: a float32 frame holding intensity 1/2 becomes byte 127
(truncation of 127.5), a uint8 frame holding 7 passes through, and an int32
frame is rejected. -/
theorem videoWriter_write_dtype_witness :
    VideoWriter.write (1, 1) ⟨1, 1, 3, Dtype.float32, [1/2]⟩ = .ok [(127 : ℚ)] ∧
    VideoWriter.write (1, 1) ⟨1, 1, 3, Dtype.uint8, [7]⟩ = .ok [(7 : ℚ)] ∧
    VideoWriter.write (1, 1) ⟨1, 1, 3, Dtype.int32, [7]⟩ =
      .error "Dtype is not supported" := by
  refine ⟨?_, ?_, ?_⟩
  · have h := (videoWriter_write_dtype (1, 1) ⟨1, 1, 3, Dtype.float32, [1/2]⟩
      rfl rfl rfl).1 rfl
    rw [h]
    norm_num [truncUint8]
    rfl
  · exact (videoWriter_write_dtype (1, 1) ⟨1, 1, 3, Dtype.uint8, [7]⟩
      rfl rfl rfl).2.1 rfl
  · exact (videoWriter_write_dtype (1, 1) ⟨1, 1, 3, Dtype.int32, [7]⟩
      rfl rfl rfl).2.2 rfl (by decide)

/-! ### Stream shutdown (`close` in all four classes)

The state of one external process session: which of its pipes have been
closed and whether it has been joined.  The two primitives encode the
CPython semantics the source relies on: `io` file objects' `close()` is
idempotent (a second call on a closed file is a no-op and does not raise),
and `subprocess.Popen.wait()` on an already-exited process returns the
cached return code immediately.  `__exit__` and `__del__` in the source
call the same `close` methods, so the theorems cover those paths too. -/

/-- An external ffmpeg process session. -/
structure ProcState where
  stdinClosed : Bool
  stdoutClosed : Bool
  exited : Bool
deriving DecidableEq

/-- `Popen.wait()`: joins the process (idempotent; returns at once when the
process has already exited). -/
def ProcState.wait (p : ProcState) : ProcState :=
  { p with exited := true }

/-- `Uint16Writer.close` (`video_uint16.py` lines 229-234): unconditionally
`stdin.close()` then `wait()`. -/
def Uint16Writer.close (p : ProcState) : ProcState :=
  ProcState.wait { p with stdinClosed := true }

/-- `VideoWriter.close` (`video_rgb.py` lines 281-287): guarded by
`hasattr(self, "ffmpeg_process")` — `none` models an object whose
constructor never reached the process spawn. -/
def VideoWriter.close (w : Option ProcState) : Option ProcState :=
  match w with
  | none => none
  | some p => some (ProcState.wait { p with stdinClosed := true })

/-- `VideoReader.close` (`video_rgb.py` lines 213-219): guarded by
`hasattr` and `is not None`; the attribute stays set after closing, so a
second call repeats `stdout.close()` and `wait()`. -/
def VideoReader.close (r : Option ProcState) : Option ProcState :=
  match r with
  | none => none
  | some p => some (ProcState.wait { p with stdoutClosed := true })

/-- `Uint16Reader.close` (`video_uint16.py` lines 159-165): guarded by
`is not None` only. -/
def Uint16Reader.close (r : Option ProcState) : Option ProcState :=
  match r with
  | none => none
  | some p => some (ProcState.wait { p with stdoutClosed := true })

/-- C8.  For every writer and reader, closing a second time after a first
close repeats only idempotent operations and leaves the session state
unchanged: `close ∘ close = close` for all four classes.  Because each
second call is made of the same total, non-raising primitives (file
`close()` on an already-closed pipe, `wait()` on an exited process), it
neither raises nor blocks; `__exit__` and `__del__` reuse the same
methods. -/
theorem close_idempotent (p : ProcState) (w r u : Option ProcState) :
    Uint16Writer.close (Uint16Writer.close p) = Uint16Writer.close p ∧
    VideoWriter.close (VideoWriter.close w) = VideoWriter.close w ∧
    VideoReader.close (VideoReader.close r) = VideoReader.close r ∧
    Uint16Reader.close (Uint16Reader.close u) = Uint16Reader.close u := by
  refine ⟨rfl, ?_, ?_, ?_⟩
  · cases w <;> rfl
  · cases r <;> rfl
  · cases u <;> rfl

/-! ### Whole-video read functions (`videoread`, `uint16read`)

The byte stream the external process emits on its stdout pipe is modelled
as the list of all bytes it will ever produce; `stdout.read(n)` on the
buffered pipe returns `min n remaining` bytes, so a short chunk occurs only
at the end of the stream. -/

/-- The read loops of `videoread` (`video_rgb.py` lines 65-70) and
`uint16read` (`video_uint16.py` lines 43-58): repeatedly read `n` bytes;
stop on an empty chunk (also when `n = 0`, since `read(0)` returns the
empty byte string); an incomplete trailing chunk makes `reshape` raise. -/
def readFrames (n : Nat) (stream : List Nat) : Except String (List (List Nat)) :=
  if n = 0 then .ok []
  else if stream.length = 0 then .ok []
  else if stream.length < n then .error "cannot reshape array"
  else
    match readFrames n (stream.drop n) with
    | .ok rest => .ok (stream.take n :: rest)
    | .error e => .error e
termination_by stream.length
decreasing_by simp; omega

/-- `np.stack(frames, axis=0)`: raises a ValueError on an empty list of
arrays, otherwise builds the stacked array. -/
def npStack (frames : List (List Nat)) : Except String (List (List Nat)) :=
  match frames with
  | [] => .error "need at least one array to stack"
  | _ => .ok frames

/-- `videoread` (`video_rgb.py` lines 64-74) downstream of the spawned
process: collect raw `width*height*3`-byte RGB frames from the byte
stream, then `np.stack` them. -/
def videoread (resolution : Nat × Nat) (stream : List Nat) :
    Except String (List (List Nat)) :=
  match readFrames (resolution.1 * resolution.2 * 3) stream with
  | .ok frames => npStack frames
  | .error e => .error e

/-- `uint16read` (`video_uint16.py` lines 42-62) downstream of the spawned
process: collect `width*height*3`-byte chunks, decode each through the
depth codec, then `np.stack` the frames. -/
def uint16read (resolution : Nat × Nat) (stream : List Nat) :
    Except String (List (List Nat)) :=
  match readFrames (resolution.1 * resolution.2 * 3) stream with
  | .ok chunks => npStack (chunks.map (uint16DecodeFrame (resolution.1 * resolution.2)))
  | .error e => .error e

/-- `readFrames` on an exhausted stream yields no frames. -/
theorem readFrames_nil (n : Nat) : readFrames n [] = .ok [] := by
  unfold readFrames
  simp

/-- C10.  On a source that yields zero complete frames (an empty byte
stream — e.g. `start_frame` at or past the end of the video), both
`videoread` and `uint16read` end up stacking an empty frame list, which
raises rather than returning an empty array: there is no empty-result
value at this interface. -/
theorem read_empty_source_raises (resolution : Nat × Nat) :
    videoread resolution [] = .error "need at least one array to stack" ∧
    uint16read resolution [] = .error "need at least one array to stack" := by
  constructor <;>
    simp [videoread, uint16read, readFrames_nil, npStack]

end Videoio
